import Mathlib

/-!
Shallow embedding of `main.py` of astrbot_plugin_github_bot: the OAuth
authorize-callback handler, the webhook intake handler, and the
`/github.repos` command handler, together with the in-memory token store
`self.user_tokens`.  Outbound HTTP calls are modelled by passing the
outcome the network would produce as an explicit argument, and each
handler result records whether the outbound call was performed and (for
the repos command) which `Authorization` header it sent.
-/

namespace GithubBot

/-- An aiohttp `web.Response(text=..., status=...)`; `status` defaults to 200
at the call sites that omit it, which the embedding writes explicitly. -/
structure HttpResponse where
  text : String
  status : Nat
deriving Repr, DecidableEq

/-- `self.user_tokens`: a Python dict from caller id (the OAuth `state`) to
access token, modelled as a partial map. -/
def TokenStore : Type := String → Option String

/-- The dict `{}` created in `__init__`. -/
def emptyStore : TokenStore := fun _ => none

/-- `self.user_tokens[state] = access_token`: insert or overwrite. -/
def storePut (st : TokenStore) (k v : String) : TokenStore :=
  fun x => if x = k then some v else st x

/-- The JSON object returned by GitHub's token endpoint, as accessed by the
code: `result.get("access_token")` and `result.get("error_description", ...)`. -/
structure TokenResponse where
  access_token : Option String
  error_description : Option String
deriving Repr, DecidableEq

/-- Outcome of `session.post(token_url, ...)` followed by `resp.json()`:
either a parsed JSON object, or an exception raised by aiohttp (network or
transport failure, or a body that fails to decode). -/
inductive ExchangeOutcome where
  | ok (result : TokenResponse)
  | exc (cause : String)
deriving Repr, DecidableEq

/-- Result of running `oauth_callback_handler`: either a returned
`web.Response` or an exception escaping the handler (`Except.error`),
the token store afterwards, and whether the outbound POST to the token
endpoint was performed. -/
structure CallbackResult where
  outcome : Except String HttpResponse
  store : TokenStore
  exchangeCalled : Bool

/-- Python's `str.upper()` as applied to HTTP method names: upper-case every
character. -/
def pyUpper (s : String) : String := String.mk (s.data.map Char.toUpper)

/-- `oauth_callback_handler` (main.py lines 58-92).  `code` and `state` are
`query.get(...)` results; `none` models an absent query parameter.  The
handler performs the exchange only after the method check and the
`if not code or not state` truthiness check (Python treats both `None` and
`""` as falsy); an exception from the POST is not caught and escapes. -/
def oauth_callback_handler (store : TokenStore) (method : String)
    (code state : Option String) (exchange : ExchangeOutcome) : CallbackResult :=
  if pyUpper method ≠ "GET" then
    ⟨.ok ⟨"不支持的请求方法", 405⟩, store, false⟩
  else
    match code, state with
    | some c, some s =>
      if c = "" ∨ s = "" then
        ⟨.ok ⟨"缺少 code 或 state 参数", 400⟩, store, false⟩
      else
        match exchange with
        | .exc cause => ⟨.error cause, store, true⟩
        | .ok result =>
          match result.access_token with
          | some t =>
            if t = "" then
              ⟨.ok ⟨"GitHub 授权失败：" ++ result.error_description.getD "未知错误", 400⟩,
                store, true⟩
            else
              ⟨.ok ⟨"GitHub 授权成功，您现在可以使用 GitHub 相关指令。", 200⟩,
                storePut store s t, true⟩
          | none =>
            ⟨.ok ⟨"GitHub 授权失败：" ++ result.error_description.getD "未知错误", 400⟩,
              store, true⟩
    | _, _ => ⟨.ok ⟨"缺少 code 或 state 参数", 400⟩, store, false⟩

/-- aiohttp's web server (third-party framework, not this repository): an
exception escaping a handler is caught by the framework, which sends a
generic `500 Internal Server Error` response whose body does not mention
the exception; the process keeps running. -/
def aiohttp_error_response (_cause : String) : HttpResponse :=
  ⟨"500 Internal Server Error", 500⟩

/-- The HTTP response the client finally sees for a callback request:
the handler's own response, or aiohttp's generic 500 page when the
handler raised. -/
def gateway_response (r : CallbackResult) : HttpResponse :=
  match r.outcome with
  | .ok resp => resp
  | .error cause => aiohttp_error_response cause

/-- Response of `GET https://api.github.com/user/repos` as consumed by the
code: the status, the raw body text (read only on the failure path), and
the list of `full_name` fields of `resp.json()` (read only on status 200). -/
structure ApiResponse where
  status : Nat
  bodyText : String
  reposJson : List String
deriving Repr, DecidableEq

/-- Result of the `/github.repos` command: the chat replies yielded, whether
the outbound GET was performed, the `Authorization` header it carried (if
performed), and the token store afterwards (the command never writes it). -/
structure ReposResult where
  messages : List String
  apiCalled : Bool
  authHeader : Option String
  store : TokenStore

/-- `github_repos` (main.py lines 156-182).  `token = self.user_tokens.get(user_id)`;
`if not token` treats an absent and an empty token alike; the request sends
`Authorization: token <access_token>`; only status 200 is the success path. -/
def github_repos (store : TokenStore) (user_id : String) (api : ApiResponse) : ReposResult :=
  match store user_id with
  | none => ⟨["未检测到授权信息，请先使用 /github.authorize 进行授权。"], false, none, store⟩
  | some token =>
    if token = "" then
      ⟨["未检测到授权信息，请先使用 /github.authorize 进行授权。"], false, none, store⟩
    else
      if api.status ≠ 200 then
        ⟨["获取仓库列表失败：" ++ api.bodyText], true, some ("token " ++ token), store⟩
      else if api.reposJson = [] then
        ⟨["没有获取到仓库。"], true, some ("token " ++ token), store⟩
      else
        ⟨["你的仓库：\n" ++ String.intercalate "\n" api.reposJson], true,
          some ("token " ++ token), store⟩

/-- A parsed JSON value, the result of `await request.json()` on the webhook
route when parsing succeeds. -/
inductive Json where
  | null
  | bool (b : Bool)
  | num (n : Int)
  | str (s : String)
  | arr (elems : List Json)
  | obj (fields : List (String × Json))

/-- Lower-case hex digit, as used by Python in `\uXXXX` escapes. -/
def hexChar (n : Nat) : Char :=
  if n < 10 then Char.ofNat (48 + n) else Char.ofNat (87 + n)

/-- Four lower-case hex digits of a code point below 0x10000. -/
def hex4 (n : Nat) : String :=
  String.mk [hexChar ((n / 4096) % 16), hexChar ((n / 256) % 16),
    hexChar ((n / 16) % 16), hexChar (n % 16)]

/-- String-character escaping of Python's `json.dumps` with
`ensure_ascii=False`: quote, backslash and control characters are escaped
(the latter with the short forms for backspace, formfeed, newline, carriage
return and tab, `\uXXXX` otherwise); every other character is kept as is. -/
def jsonEscapeChar (c : Char) : String :=
  if c.toNat = 34 then "\\\""
  else if c.toNat = 92 then "\\\\"
  else if c.toNat = 8 then "\\b"
  else if c.toNat = 12 then "\\f"
  else if c.toNat = 10 then "\\n"
  else if c.toNat = 13 then "\\r"
  else if c.toNat = 9 then "\\t"
  else if c.toNat < 32 then "\\u" ++ hex4 c.toNat
  else String.singleton c

/-- Escape a whole string for a JSON string literal. -/
def jsonEscape (s : String) : String :=
  String.join (s.data.map jsonEscapeChar)

/-- The `indent * level` spaces `json.dumps(..., indent=2)` prefixes to a
line nested `level` containers deep. -/
def indentStr (level : Nat) : String :=
  String.mk (List.replicate (2 * level) (Char.ofNat 32))

mutual

/-- `json.dumps(v, ensure_ascii=False, indent=2)` at nesting depth `level`:
with an indent, containers break one item per line, the item separator is
`","` followed by the indented newline, and the key separator is `": "`;
empty containers print without any newline. -/
def dumpsJson (level : Nat) : Json → String
  | .null => "null"
  | .bool true => "true"
  | .bool false => "false"
  | .num n => toString n
  | .str s => "\"" ++ jsonEscape s ++ "\""
  | .arr [] => "[]"
  | .arr (x :: xs) =>
    "[\n" ++ indentStr (level + 1) ++ dumpsJson (level + 1) x ++
      dumpsArrTail (level + 1) xs ++ "\n" ++ indentStr level ++ "]"
  | .obj [] => "\x7b\x7d"
  | .obj (f :: fs) =>
    "\x7b\n" ++ indentStr (level + 1) ++ dumpsField (level + 1) f ++
      dumpsObjTail (level + 1) fs ++ "\n" ++ indentStr level ++ "\x7d"

/-- One `"key": value` member of an object. -/
def dumpsField (level : Nat) : String × Json → String
  | (k, v) => "\"" ++ jsonEscape k ++ "\": " ++ dumpsJson level v

/-- The remaining array items, each preceded by `",\n"` and the indent. -/
def dumpsArrTail (level : Nat) : List Json → String
  | [] => ""
  | x :: xs => ",\n" ++ indentStr level ++ dumpsJson level x ++ dumpsArrTail level xs

/-- The remaining object members, each preceded by `",\n"` and the indent. -/
def dumpsObjTail (level : Nat) : List (String × Json) → String
  | [] => ""
  | f :: fs => ",\n" ++ indentStr level ++ dumpsField level f ++ dumpsObjTail level fs

end

/-- `json.dumps(payload, ensure_ascii=False, indent=2)` as called on line 108. -/
def json_dumps (payload : Json) : String := dumpsJson 0 payload

/-- Result of running `webhook_handler`: the `web.Response` returned, the
messages forwarded to the configured channel via `context.send_message`,
and the token store afterwards (the handler never touches it). -/
structure WebhookResult where
  response : HttpResponse
  forwarded : List String
  store : TokenStore

/-- `webhook_handler` (main.py lines 94-115).  `body` is the outcome of
`await request.json()` (`Except.error` carries `str(e)` of the parse
exception); the event type comes from the `X-GitHub-Event` header with
default `"unknown"`; the formatted message is forwarded only when
`self.webhook_channel` is truthy (non-empty). -/
def webhook_handler (store : TokenStore) (webhookChannel : String) (method : String)
    (body : Except String Json) (headers : List (String × String)) : WebhookResult :=
  if pyUpper method ≠ "POST" then
    ⟨⟨"不支持的请求方法", 405⟩, [], store⟩
  else
    match body with
    | .error e => ⟨⟨"解析 Webhook payload 失败：" ++ e, 400⟩, [], store⟩
    | .ok payload =>
      let event_type := (headers.lookup "X-GitHub-Event").getD "unknown"
      let message := "收到 GitHub Webhook 事件：" ++ event_type ++ "\nPayload:\n" ++
        json_dumps payload
      let forwarded := if webhookChannel = "" then [] else [message]
      ⟨⟨"Webhook 接收成功", 200⟩, forwarded, store⟩

lemma pyUpper_GET : pyUpper "GET" = "GET" := rfl

lemma pyUpper_POST : pyUpper "POST" = "POST" := rfl

/-- Reading back the key just written. -/
lemma storePut_same (st : TokenStore) (k v : String) : storePut st k v k = some v := by
  simp [storePut]

/-- A successful exchange (non-empty token) returns the success response and
stores the token under `state`. -/
lemma oauth_success (store : TokenStore) (c s t : String) (ed : Option String)
    (hc : c ≠ "") (hs : s ≠ "") (ht : t ≠ "") :
    oauth_callback_handler store "GET" (some c) (some s) (.ok ⟨some t, ed⟩) =
      ⟨.ok ⟨"GitHub 授权成功，您现在可以使用 GitHub 相关指令。", 200⟩,
        storePut store s t, true⟩ := by
  simp [oauth_callback_handler, pyUpper_GET, hc, hs, ht]

/-- Whenever a non-empty token is on file, the repos command performs the
outbound GET with header `Authorization: token <access_token>`, and the
messages only depend on the status, body text and parsed repo list. -/
lemma github_repos_some (store : TokenStore) (id t : String) (api : ApiResponse)
    (h : store id = some t) (ht : t ≠ "") :
    github_repos store id api =
      ⟨(if api.status ≠ 200 then ["获取仓库列表失败：" ++ api.bodyText]
        else if api.reposJson = [] then ["没有获取到仓库。"]
        else ["你的仓库：\n" ++ String.intercalate "\n" api.reposJson]),
        true, some ("token " ++ t), store⟩ := by
  simp only [github_repos, h]
  rw [if_neg ht]
  by_cases h1 : api.status ≠ 200
  · rw [if_pos h1, if_pos h1]
  · rw [if_neg h1, if_neg h1]
    by_cases h2 : api.reposJson = []
    · rw [if_pos h2, if_pos h2]
    · rw [if_neg h2, if_neg h2]

/-- Whenever a non-empty token is on file, the repos command performs the
outbound GET and sends `Authorization: token <access_token>`. -/
lemma github_repos_auth (store : TokenStore) (id t : String) (api : ApiResponse)
    (h : store id = some t) (ht : t ≠ "") :
    (github_repos store id api).authHeader = some ("token " ++ t) ∧
      (github_repos store id api).apiCalled = true := by
  rw [github_repos_some store id t api h ht]
  exact ⟨rfl, rfl⟩

/-- Claim C1 as stated is refuted when the token endpoint returns the JSON
object containing `access_token` `""`: nothing is stored under the state
key (the store read yields `none`), and the subsequent repos command sends
no `Authorization` header at all. -/
theorem C1_counterexample :
    (oauth_callback_handler emptyStore "GET" (some "c") (some "s")
        (.ok ⟨some "", none⟩)).store "s" = none ∧
      (github_repos (oauth_callback_handler emptyStore "GET" (some "c") (some "s")
        (.ok ⟨some "", none⟩)).store "s" ⟨200, "", ["octo/repo"]⟩).authHeader = none :=
  ⟨rfl, rfl⟩

/-- Claim C1 (amended): for every non-empty `code` and `state`, if the
token-endpoint exchange returns a JSON object containing a NON-EMPTY
`access_token` `t`, then `t` is stored under key `state`, and a subsequent
repos command for that state performs the outbound GET with header
`Authorization: token t`. -/
theorem C1_theorem (store : TokenStore) (c s t : String) (ed : Option String)
    (hc : c ≠ "") (hs : s ≠ "") (ht : t ≠ "") (api : ApiResponse) :
    ((oauth_callback_handler store "GET" (some c) (some s) (.ok ⟨some t, ed⟩)).store s
        = some t) ∧
      ((github_repos (oauth_callback_handler store "GET" (some c) (some s)
          (.ok ⟨some t, ed⟩)).store s api).authHeader = some ("token " ++ t)) ∧
      ((github_repos (oauth_callback_handler store "GET" (some c) (some s)
          (.ok ⟨some t, ed⟩)).store s api).apiCalled = true) := by
  rw [oauth_success store c s t ed hc hs ht]
  have h := github_repos_auth (storePut store s t) s t api (storePut_same store s t) ht
  exact ⟨storePut_same store s t, h.1, h.2⟩

/-- Witness for C1 at a concrete input. -/
theorem C1_witness :
    ((oauth_callback_handler emptyStore "GET" (some "abc") (some "user1")
        (.ok ⟨some "tok123", none⟩)).store "user1" = some "tok123") ∧
      ((github_repos (oauth_callback_handler emptyStore "GET" (some "abc") (some "user1")
          (.ok ⟨some "tok123", none⟩)).store "user1"
          ⟨200, "", ["octo/repo"]⟩).authHeader = some ("token " ++ "tok123")) ∧
      ((github_repos (oauth_callback_handler emptyStore "GET" (some "abc") (some "user1")
          (.ok ⟨some "tok123", none⟩)).store "user1"
          ⟨200, "", ["octo/repo"]⟩).apiCalled = true) :=
  C1_theorem emptyStore "abc" "user1" "tok123" none (by decide) (by decide) (by decide)
    ⟨200, "", ["octo/repo"]⟩

/-- Claim C2: after a successful exchange storing token `a` and then a
successful exchange storing token `b` for the same state, only `b` is on
file for that state and every subsequent repos command for it sends
`Authorization: token b`. -/
theorem C2_theorem (store : TokenStore) (c1 c2 s a b : String) (ed1 ed2 : Option String)
    (hc1 : c1 ≠ "") (hc2 : c2 ≠ "") (hs : s ≠ "") (ha : a ≠ "") (hb : b ≠ "")
    (api : ApiResponse) :
    ((oauth_callback_handler
        (oauth_callback_handler store "GET" (some c1) (some s) (.ok ⟨some a, ed1⟩)).store
        "GET" (some c2) (some s) (.ok ⟨some b, ed2⟩)).store s = some b) ∧
      ((github_repos (oauth_callback_handler
          (oauth_callback_handler store "GET" (some c1) (some s) (.ok ⟨some a, ed1⟩)).store
          "GET" (some c2) (some s) (.ok ⟨some b, ed2⟩)).store s api).authHeader
        = some ("token " ++ b)) := by
  rw [oauth_success store c1 s a ed1 hc1 hs ha]
  rw [oauth_success (storePut store s a) c2 s b ed2 hc2 hs hb]
  have h := github_repos_auth (storePut (storePut store s a) s b) s b api
    (storePut_same (storePut store s a) s b) hb
  exact ⟨storePut_same (storePut store s a) s b, h.1⟩

/-- Witness for C2 at a concrete input. -/
theorem C2_witness :
    ((oauth_callback_handler
        (oauth_callback_handler emptyStore "GET" (some "c1") (some "u")
          (.ok ⟨some "tokA", none⟩)).store
        "GET" (some "c2") (some "u") (.ok ⟨some "tokB", none⟩)).store "u" = some "tokB") ∧
      ((github_repos (oauth_callback_handler
          (oauth_callback_handler emptyStore "GET" (some "c1") (some "u")
            (.ok ⟨some "tokA", none⟩)).store
          "GET" (some "c2") (some "u") (.ok ⟨some "tokB", none⟩)).store "u"
          ⟨200, "", []⟩).authHeader = some ("token " ++ "tokB")) :=
  C2_theorem emptyStore "c1" "c2" "u" "tokA" "tokB" none none (by decide) (by decide)
    (by decide) (by decide) (by decide) ⟨200, "", []⟩

/-- Claim C3: a callback request with `code` or `state` absent is answered
with the missing-parameter text and status 400, the token endpoint is not
invoked, and the store is unchanged. -/
theorem C3_theorem (store : TokenStore) (code state : Option String) (ex : ExchangeOutcome)
    (h : code = none ∨ state = none) :
    oauth_callback_handler store "GET" code state ex =
      ⟨.ok ⟨"缺少 code 或 state 参数", 400⟩, store, false⟩ := by
  unfold oauth_callback_handler
  rw [if_neg (by decide : ¬ (pyUpper "GET" ≠ "GET"))]
  rcases h with h | h
  · subst h; cases state <;> rfl
  · subst h; cases code <;> rfl

/-- Witness for C3 at a concrete input (state absent, code present). -/
theorem C3_witness :
    oauth_callback_handler emptyStore "GET" (some "abc") none
        (.ok ⟨some "tok123", none⟩) =
      ⟨.ok ⟨"缺少 code 或 state 参数", 400⟩, emptyStore, false⟩ :=
  C3_theorem emptyStore (some "abc") none (.ok ⟨some "tok123", none⟩) (Or.inr rfl)

/-- Claim C4: the repos command for an identity with no stored token yields
only the authorize-first prompt, performs no outbound call and sends no
`Authorization` header, for every possible API response. -/
theorem C4_theorem (store : TokenStore) (id : String) (api : ApiResponse)
    (h : store id = none) :
    github_repos store id api =
      ⟨["未检测到授权信息，请先使用 /github.authorize 进行授权。"], false, none, store⟩ := by
  unfold github_repos
  rw [h]

/-- Witness for C4 at a concrete input. -/
theorem C4_witness :
    github_repos emptyStore "user1" ⟨200, "", ["octo/repo"]⟩ =
      ⟨["未检测到授权信息，请先使用 /github.authorize 进行授权。"], false, none, emptyStore⟩ :=
  C4_theorem emptyStore "user1" ⟨200, "", ["octo/repo"]⟩ rfl

/-- Claim C5 as stated is refuted at status 201: a 2xx response from the
resource API is treated as a failure (only 200 is the success path), and the
failure message carries the body text but not the status. -/
theorem C5_counterexample :
    (github_repos (storePut emptyStore "u" "tok") "u"
        ⟨201, "created", ["octo/repo"]⟩).messages = ["获取仓库列表失败：created"] := rfl

/-- Claim C5 (amended): with a non-empty token on file, a response with any
status other than 200 — 2xx statuses included — fails with a message
carrying the raw body text only (the status is not part of the message, and
the body is not re-parsed as JSON), while exactly the status-200 responses
are treated as success. -/
theorem C5_theorem (store : TokenStore) (id t : String) (api : ApiResponse)
    (h : store id = some t) (ht : t ≠ "") :
    (api.status ≠ 200 →
      github_repos store id api =
        ⟨["获取仓库列表失败：" ++ api.bodyText], true, some ("token " ++ t), store⟩) ∧
    (api.status = 200 →
      github_repos store id api =
        ⟨(if api.reposJson = [] then ["没有获取到仓库。"]
          else ["你的仓库：\n" ++ String.intercalate "\n" api.reposJson]),
          true, some ("token " ++ t), store⟩) := by
  constructor
  · intro h1
    rw [github_repos_some store id t api h ht, if_pos h1]
  · intro h1
    rw [github_repos_some store id t api h ht, if_neg (not_not_intro h1)]

/-- Witness for C5 at a concrete input (status 500). -/
theorem C5_witness :
    github_repos (storePut emptyStore "u" "tok") "u" ⟨500, "upstream down", []⟩ =
      ⟨["获取仓库列表失败：" ++ "upstream down"], true, some ("token " ++ "tok"),
        storePut emptyStore "u" "tok"⟩ :=
  (C5_theorem (storePut emptyStore "u" "tok") "u" "tok" ⟨500, "upstream down", []⟩
    rfl (by decide)).1 (by decide)

/-- Claim C6 as stated is refuted: a transport error during the token
exchange escapes `oauth_callback_handler` as a raw exception instead of
being converted inside the handler to a response naming the cause. -/
theorem C6_counterexample :
    (oauth_callback_handler emptyStore "GET" (some "c") (some "s")
        (.exc "connection refused")).outcome = .error "connection refused" := rfl

/-- Claim C6 (amended): a network/transport error during the token exchange
propagates out of the handler as an uncaught exception carrying the cause,
the token store is unchanged, and the hosting aiohttp framework — not the
handler — turns it into a generic `500 Internal Server Error` response that
does not include the cause; the process itself does not crash. -/
theorem C6_theorem (store : TokenStore) (c s cause : String)
    (hc : c ≠ "") (hs : s ≠ "") :
    ((oauth_callback_handler store "GET" (some c) (some s) (.exc cause)).outcome
        = .error cause) ∧
      ((oauth_callback_handler store "GET" (some c) (some s) (.exc cause)).store = store) ∧
      (gateway_response (oauth_callback_handler store "GET" (some c) (some s) (.exc cause))
        = ⟨"500 Internal Server Error", 500⟩) := by
  have h : oauth_callback_handler store "GET" (some c) (some s) (.exc cause) =
      ⟨.error cause, store, true⟩ := by
    simp [oauth_callback_handler, pyUpper_GET, hc, hs]
  rw [h]
  exact ⟨rfl, rfl, rfl⟩

/-- Witness for C6 at a concrete input. -/
theorem C6_witness :
    ((oauth_callback_handler emptyStore "GET" (some "abc") (some "user1")
        (.exc "timeout")).outcome = .error "timeout") ∧
      ((oauth_callback_handler emptyStore "GET" (some "abc") (some "user1")
          (.exc "timeout")).store = emptyStore) ∧
      (gateway_response (oauth_callback_handler emptyStore "GET" (some "abc") (some "user1")
          (.exc "timeout")) = ⟨"500 Internal Server Error", 500⟩) :=
  C6_theorem emptyStore "abc" "user1" "timeout" (by decide) (by decide)

/-- Claim C7: a webhook request whose body fails to parse as JSON is
answered with status 400 and a message carrying the parse error, and
nothing is forwarded to the configured channel; the token store is
untouched. -/
theorem C7_theorem (store : TokenStore) (chan e : String)
    (headers : List (String × String)) :
    webhook_handler store chan "POST" (.error e) headers =
      ⟨⟨"解析 Webhook payload 失败：" ++ e, 400⟩, [], store⟩ := by
  simp [webhook_handler, pyUpper_POST]

/-- Claim C8: a webhook request with a valid JSON body is acknowledged with
status 200, and the notification message (forwarded exactly when a channel
is configured) embeds the `X-GitHub-Event` header value — `"unknown"` when
absent — together with the `indent=2`, `ensure_ascii=False` JSON dump of
the payload; at the concrete push example the forwarded message contains
the literal `push` and the pretty-printed body. -/
theorem C8_theorem (store : TokenStore) (chan : String) (payload : Json)
    (headers : List (String × String)) :
    (webhook_handler store chan "POST" (.ok payload) headers =
      ⟨⟨"Webhook 接收成功", 200⟩,
        (if chan = "" then []
         else ["收到 GitHub Webhook 事件：" ++ (headers.lookup "X-GitHub-Event").getD "unknown"
           ++ "\nPayload:\n" ++ json_dumps payload]), store⟩) ∧
    ((webhook_handler emptyStore "dev-channel" "POST"
        (.ok (.obj [("ref", .str "refs/heads/main")]))
        [("X-GitHub-Event", "push")]).forwarded =
      ["收到 GitHub Webhook 事件：push\nPayload:\n\x7b\n  \"ref\": \"refs/heads/main\"\n\x7d"]) := by
  constructor
  · simp [webhook_handler, pyUpper_POST]
  · rfl

/-- Claim C9: the webhook handler never modifies the token store, whatever
the method, channel, headers and body; the repos command does not write it
either — only the authorize-callback handler does. -/
theorem C9_theorem (store : TokenStore) (chan method : String)
    (body : Except String Json) (headers : List (String × String))
    (id : String) (api : ApiResponse) :
    ((webhook_handler store chan method body headers).store = store) ∧
      ((github_repos store id api).store = store) := by
  constructor
  · unfold webhook_handler
    split
    · rfl
    · cases body with
      | error e => rfl
      | ok p => rfl
  · unfold github_repos
    split
    · rfl
    · split
      · rfl
      · split
        · rfl
        · split
          · rfl
          · rfl

/-- Claim C10: an empty-string `code` or `state` is rejected exactly like an
absent parameter (400, token endpoint not invoked, store unchanged), the
handler never writes the empty-string identity whatever its input, and a
present-but-empty `access_token` takes the denied branch and stores
nothing. -/
theorem C10_theorem (store : TokenStore) (c s : String) (hc : c ≠ "") (hs : s ≠ "") :
    (∀ state : Option String, ∀ ex : ExchangeOutcome,
      oauth_callback_handler store "GET" (some "") state ex =
        ⟨.ok ⟨"缺少 code 或 state 参数", 400⟩, store, false⟩) ∧
    (∀ ex : ExchangeOutcome,
      oauth_callback_handler store "GET" (some c) (some "") ex =
        ⟨.ok ⟨"缺少 code 或 state 参数", 400⟩, store, false⟩) ∧
    (∀ ed : Option String,
      oauth_callback_handler store "GET" (some c) (some s) (.ok ⟨some "", ed⟩) =
        ⟨.ok ⟨"GitHub 授权失败：" ++ ed.getD "未知错误", 400⟩, store, true⟩) ∧
    (∀ method : String, ∀ code state : Option String, ∀ ex : ExchangeOutcome,
      (oauth_callback_handler store method code state ex).store "" = store "") := by
  refine ⟨?_, ?_, ?_, ?_⟩
  · intro state ex
    cases state with
    | none => rfl
    | some s2 => simp [oauth_callback_handler, pyUpper_GET]
  · intro ex
    simp [oauth_callback_handler, pyUpper_GET]
  · intro ed
    simp [oauth_callback_handler, pyUpper_GET, hc, hs]
  · intro method code state ex
    unfold oauth_callback_handler
    split
    · rfl
    · split
      · split
        · rfl
        · next hcs =>
          push_neg at hcs
          split
          · rfl
          · split
            · split
              · rfl
              · show storePut store _ _ "" = store ""
                simp only [storePut]
                rw [if_neg (fun he => hcs.2 he.symm)]
            · rfl
      · rfl

/-- Witness for C10 at concrete inputs. -/
theorem C10_witness :
    (oauth_callback_handler emptyStore "GET" (some "") (some "user1")
        (.ok ⟨some "tok", none⟩) =
      ⟨.ok ⟨"缺少 code 或 state 参数", 400⟩, emptyStore, false⟩) ∧
    (oauth_callback_handler emptyStore "GET" (some "abc") (some "")
        (.ok ⟨some "tok", none⟩) =
      ⟨.ok ⟨"缺少 code 或 state 参数", 400⟩, emptyStore, false⟩) ∧
    (oauth_callback_handler emptyStore "GET" (some "abc") (some "user1")
        (.ok ⟨some "", some "bad verification code"⟩) =
      ⟨.ok ⟨"GitHub 授权失败：" ++ (some "bad verification code").getD "未知错误", 400⟩,
        emptyStore, true⟩) ∧
    ((oauth_callback_handler emptyStore "GET" (some "abc") (some "user1")
        (.ok ⟨some "tok", none⟩)).store "" = emptyStore "") := by
  have h := C10_theorem emptyStore "abc" "user1" (by decide) (by decide)
  exact ⟨h.1 (some "user1") (.ok ⟨some "tok", none⟩),
    h.2.1 (.ok ⟨some "tok", none⟩),
    h.2.2.1 (some "bad verification code"),
    h.2.2.2 "GET" (some "abc") (some "user1") (.ok ⟨some "tok", none⟩)⟩

end GithubBot
